import Mathlib

/-!
# Verification of the icd-backend portfolio analytics engine

Shallow embedding of the analytics code of the `icd-backend` repository
(`assets/views.py`, `assets/services.py`, models in `assets/models.py`),
with theorems settling the frozen claims about the specification.

Modelling conventions:
* Stored `DecimalField` amounts are modelled as exact rationals (`ℚ`);
  nullable fields as `Option ℚ`.  The source rounds to 2 decimal places at
  the persistence boundary; the claims under verification are about the
  pre-rounding formulas, so rounding is idealised away.
* `RiskMetrics` fields are modelled as `Option ℝ` because the risk
  calculator stores values built from `sqrt` (volatility, Sharpe).
* Python float NaN (arising from numpy `0.0/0.0`) is modelled as `none` in
  an `Option ℚ`-valued computation; `np.max` propagates NaN, which the
  model mirrors by propagating `none`.
* Database rows are modelled as explicit state records; each Django view's
  write effect is a pure state-transformation function.
* The sync view's portfolio block raises `NameError` at `views.py` line
  320 (`PortfolioSnapshot` is not among the names imported at line 8); the
  embedding models the resulting truncated effect: portfolio fields are
  updated and saved (lines 288-317), then nothing after line 317 takes
  effect.
-/

/-- Wallet-token rows visible to one request: `(token.symbol, balance_usd)`,
with `balance_usd` nullable as in the `WalletToken` model. -/
abbrev TokenRow := String × Option ℚ

/-- Python `wt.balance_usd or 0` (`or`: `None` and `0` both give `0`). -/
def orZero (v : Option ℚ) : ℚ := v.getD 0

/-- Source `total_value = sum(wt.balance_usd or 0 for wt in wallet_tokens)`
(`views.py` lines 39 and 285). -/
def sumTokens (toks : List TokenRow) : ℚ := (toks.map (fun t => orZero t.2)).sum

/-- Accumulate one `(symbol, value)` pair into the association list that
models the Python `token_values` dict (insertion-ordered). -/
def addToken (acc : List (String × ℚ)) (sym : String) (v : ℚ) : List (String × ℚ) :=
  match acc with
  | [] => [(sym, v)]
  | (s, x) :: rest => if s = sym then (s, x + v) :: rest else (s, x) :: addToken rest sym v

/-- The `token_values` dict of `views.py` lines 332-338: group wallet-token
rows by symbol, summing `balance_usd or 0`. -/
def aggregateTokens (toks : List TokenRow) : List (String × ℚ) :=
  toks.foldl (fun acc t => addToken acc t.1 (orZero t.2)) []

/-- Source `largest_position = max(token_values.values())` (`views.py` line 341);
`0` as the (never used) default for an empty dict. -/
def largestAgg (toks : List TokenRow) : ℚ :=
  ((aggregateTokens toks).map Prod.snd).max?.getD 0

/-- The mutable `Portfolio` row (`models.py`): current total, the three
lazily-filled checkpoints, and the all-time extrema, together with the
portfolio's append-only snapshot series (`PortfolioSnapshot` values in
time order).  Date columns carry no claim content and are omitted. -/
structure PortfolioState where
  total : ℚ
  prevDay : Option ℚ
  prevWeek : Option ℚ
  prevMonth : Option ℚ
  ath : Option ℚ
  atl : Option ℚ
  snapshots : List ℚ
  deriving DecidableEq, Repr

/-- A fresh `Portfolio` row as Django creates it: `total_value_usd = 0`,
every nullable column `NULL`, no snapshots. -/
def freshPortfolio : PortfolioState :=
  { total := 0, prevDay := none, prevWeek := none, prevMonth := none,
    ath := none, atl := none, snapshots := [] }

/-- Lazy checkpoint fill `if not portfolio.previous_day_value_usd: set it`
(`views.py` lines 291-296).  Python truthiness: `None` and `Decimal(0)` are
both falsy, so a checkpoint currently `0` is overwritten as well. -/
def fillCheckpoint (cp : Option ℚ) (total : ℚ) : Option ℚ :=
  match cp with
  | none => some total
  | some c => if c = 0 then some total else some c

/-- ATH update of `views.py` lines 299-301: replace when unset (`is None`)
or strictly exceeded. -/
def updateAth (ath : Option ℚ) (total : ℚ) : Option ℚ :=
  match ath with
  | none => some total
  | some h => if h < total then some total else some h

/-- ATL update of `views.py` lines 303-305, symmetrically. -/
def updateAtl (atl : Option ℚ) (total : ℚ) : Option ℚ :=
  match atl with
  | none => some total
  | some l => if total < l then some total else some l

/-- Portfolio-record part of one sync cycle, `views.py` lines 288-317:
checkpoint lazy-fill / full initialisation, extrema update, new total, all
persisted by the `save()` at line 317.  `created` is the `get_or_create`
flag.  The snapshot creation that follows at line 320 references
`PortfolioSnapshot`, a name never imported into `views.py` (line 8 imports
only `Token, WalletToken, Transaction, Portfolio, RiskMetrics`), so it
raises `NameError` on every cycle — caught by the handler at line 348 —
and no snapshot row is ever created: the snapshot series is unchanged. -/
def portfolioStep (total : ℚ) (created : Bool) (p : PortfolioState) : PortfolioState :=
  if created then
    { total := total,
      prevDay := some total, prevWeek := some total, prevMonth := some total,
      ath := some total, atl := some total,
      snapshots := p.snapshots }
  else
    { total := total,
      prevDay := fillCheckpoint p.prevDay total,
      prevWeek := fillCheckpoint p.prevWeek total,
      prevMonth := fillCheckpoint p.prevMonth total,
      ath := updateAth p.ath total,
      atl := updateAtl p.atl total,
      snapshots := p.snapshots }

/-- The `RiskMetrics` row, one-to-one with `Portfolio` (`models.py`).
Fields are `Option ℝ` because the calculator stores `sqrt`-based values. -/
structure RiskMetrics where
  volatility_30d : Option ℝ
  volatility_90d : Option ℝ
  max_drawdown : Option ℝ
  sharpe_ratio : Option ℝ
  value_at_risk : Option ℝ
  concentration_risk : Option ℝ

/-- A fresh `RiskMetrics` row: every metric column `NULL`. -/
def freshRiskMetrics : RiskMetrics :=
  { volatility_30d := none, volatility_90d := none, max_drawdown := none,
    sharpe_ratio := none, value_at_risk := none, concentration_risk := none }

/-- The concentration-risk block of `views.py` lines 328-346 rendered in
isolation: when the wallet-token set is non-empty and the total is
positive, store `(largest_position / total_value) * 100`; otherwise the
field is left as it was.  In the shipped code this block is unreachable
dead code: the `NameError` raised at line 320 (unimported
`PortfolioSnapshot`) aborts the enclosing `try` block before line 325, so
no sync cycle ever executes it. -/
noncomputable def rmStep (toks : List TokenRow) (rm : RiskMetrics) : RiskMetrics :=
  let total := sumTokens toks
  if toks ≠ [] ∧ 0 < total then
    { rm with concentration_risk := some (((largestAgg toks / total) * 100 : ℚ) : ℝ) }
  else rm

/-- The pair of database rows a sync cycle reads and may write.  A missing
`RiskMetrics` row is modelled as the all-`NULL` row, which every modelled
read path treats identically. -/
structure SyncState where
  p : PortfolioState
  rm : RiskMetrics

/-- One full reconciliation cycle, `SyncWalletDataView.post` portfolio
section (`views.py` lines 279-350): `none` models "no portfolio row yet"
(`get_or_create` then creates one, `created = True`).  The cycle updates
the portfolio record (lines 288-317) and then raises `NameError` at line
320 (`PortfolioSnapshot` is never imported into `views.py`); the handler
at line 348 records the failure and the rest of the `try` block — the
snapshot append and the whole risk-metrics section, lines 320-346 — never
runs, so the `RiskMetrics` row is left exactly as it was. -/
def syncCycle (toks : List TokenRow) (s : Option SyncState) : SyncState :=
  let total := sumTokens toks
  match s with
  | none => { p := portfolioStep total true freshPortfolio, rm := freshRiskMetrics }
  | some st => { p := portfolioStep total false st.p, rm := st.rm }

/-- A sequence of reconciliation cycles run from a given (possibly absent)
portfolio state; each cycle's wallet-token rows are one list element. -/
def runFrom (s : Option SyncState) (cycles : List (List TokenRow)) : Option SyncState :=
  cycles.foldl (fun acc t => some (syncCycle t acc)) s

/-- State effect of `PortfolioView.get` (`views.py` lines 23-41): overwrite
`total_value_usd` with the summed balances and save; `get_or_create` may
create missing `Portfolio`/`RiskMetrics` rows, but no other stored field is
written and no snapshot is appended. -/
def portfolioGet (toks : List TokenRow) (s : Option SyncState) : SyncState :=
  let total := sumTokens toks
  match s with
  | none => { p := { freshPortfolio with total := total }, rm := freshRiskMetrics }
  | some st => { st with p := { st.p with total := total } }

/-- Percentage change against one checkpoint (`views.py` lines 82-95):
`0` unless the checkpoint is present, truthy and `> 0`, else
`((total - checkpoint) / checkpoint) * 100`. -/
def pctChange (cur : ℚ) (cp : Option ℚ) : ℚ :=
  match cp with
  | none => 0
  | some c => if 0 < c then ((cur - c) / c) * 100 else 0

/-- Python `str.lower()` restricted to ASCII, which covers the hex address
strings this code compares (per-character lowercase over the string's
characters). -/
def pyLower (s : String) : String := ⟨s.data.map Char.toLower⟩

/-- Transaction direction classification (`views.py` lines 246-251): the
raw provider addresses are compared against the *lowercased* wallet
address; the provider side is not normalised, and `send` takes precedence
over `receive` (`elif`). -/
def txDirection (fromAddr toAddr walletAddr : String) : String :=
  if fromAddr = pyLower walletAddr then "send"
  else if toAddr = pyLower walletAddr then "receive"
  else "unknown"

/-- Daily-return derivation (`services.py` lines 33-38): for each adjacent
pair of values, append `(vᵢ - vᵢ₋₁) / vᵢ₋₁` when `vᵢ₋₁ > 0`, else skip. -/
def returnsOf : List ℚ → List ℚ
  | [] => []
  | [_] => []
  | a :: b :: rest => (if 0 < a then [(b - a) / a] else []) ++ returnsOf (b :: rest)

/-- Tail of `np.maximum.accumulate`: running maxima continuing from `m`. -/
def runningMaxAux (m : ℚ) : List ℚ → List ℚ
  | [] => []
  | v :: vs => max m v :: runningMaxAux (max m v) vs

/-- Source `rolling_max = np.maximum.accumulate(values)` (`services.py` line 51). -/
def runningMax : List ℚ → List ℚ
  | [] => []
  | v :: vs => v :: runningMaxAux v vs

/-- Source `drawdowns = (rolling_max - values) / rolling_max` (`services.py`
line 52), elementwise.  A zero running maximum of a non-negative valuation
series makes numpy compute `0.0/0.0 = NaN`; that NaN is modelled as
`none` (the model is faithful for non-negative series, where a zero
running maximum forces a zero numerator). -/
def codeDrawdowns (values : List ℚ) : List (Option ℚ) :=
  List.zipWith (fun m v => if m = 0 then none else some ((m - v) / m))
    (runningMax values) values

/-- One step of the `np.max` reduction over possibly-NaN entries:
NaN (`none`) absorbs, as `np.maximum` propagates NaN. -/
def combMaxO : Option ℚ → Option ℚ → Option ℚ
  | some a, some b => some (max a b)
  | _, _ => none

/-- Model of `np.max` over a possibly-NaN array (`services.py` line 53): `none` when
the array is empty (numpy raises there; never reached with ≥ 7 values) or
when any entry is NaN. -/
def npMaxO : List (Option ℚ) → Option ℚ
  | [] => none
  | x :: xs => xs.foldl combMaxO x

/-- Source `max_drawdown = 100 * np.max(drawdowns)` (`services.py` line 53);
`none` models a NaN result (which the caller's `save()` then turns into a
caught exception / soft failure). -/
def codeMaxDrawdown (values : List ℚ) : Option ℚ :=
  (npMaxO (codeDrawdowns values)).map (fun m => 100 * m)

/-- Modelled from the spec (claim-side formula, for comparison with
`codeMaxDrawdown`): drawdown at `i` is `(runningMax[i] - V[i]) / runningMax[i]`,
with an index of zero running maximum contributing `0` drawdown. -/
def claimDrawdowns (values : List ℚ) : List ℚ :=
  List.zipWith (fun m v => if m = 0 then 0 else (m - v) / m)
    (runningMax values) values

/-- Modelled from the spec (claim-side formula): max drawdown is `100 ×`
the maximum of the per-index drawdowns. -/
def claimMaxDrawdown (values : List ℚ) : ℚ :=
  100 * ((claimDrawdowns values).max?.getD 0)

/-- Model of `np.mean` of a return series (population mean). -/
def listMean (R : List ℚ) : ℚ := R.sum / (R.length : ℚ)

/-- Population variance, the square of `np.std`. -/
def popVariance (R : List ℚ) : ℚ :=
  ((R.map (fun r => (r - listMean R) ^ 2)).sum) / (R.length : ℚ)

/-- Model of `np.std`: population standard deviation, `√(popVariance)`. -/
noncomputable def popStd (R : List ℚ) : ℝ := Real.sqrt ((popVariance R : ℚ) : ℝ)

/-- Source `risk_free_rate = 0.02 / 365` (`services.py` line 56). -/
def dailyRiskFree : ℚ := 0.02 / 365

/-- Sharpe ratio (`services.py` lines 55-61): `0` when `np.std(returns) > 0`
fails, else `(mean - risk_free_rate) / std * sqrt(365)`. -/
noncomputable def sharpeRatio (R : List ℚ) : ℝ :=
  if 0 < popStd R then
    (((listMean R : ℚ) : ℝ) - ((dailyRiskFree : ℚ) : ℝ)) / popStd R * Real.sqrt 365
  else 0

/-- Source `returns_array[-30:] if len(returns_array) >= 30 else returns_array`
(`services.py` line 47). -/
def last30 (R : List ℚ) : List ℚ :=
  if 30 ≤ R.length then R.drop (R.length - 30) else R

/-- Source `volatility_30d = np.std(last 30 returns) * 100` (`services.py` line 47). -/
noncomputable def volatility30 (R : List ℚ) : ℝ := popStd (last30 R) * 100

/-- Source `volatility_90d = np.std(returns_array) * 100` (`services.py` line 48). -/
noncomputable def volatility90 (R : List ℚ) : ℝ := popStd R * 100

/-- Model of `np.percentile(R, 5)` with the default linear interpolation between
order statistics: `h = (n-1) * 5/100`, interpolate between the `⌊h⌋`-th and
next sorted values.  `0` for an empty array (numpy raises; never reached). -/
def percentile5 (R : List ℚ) : ℚ :=
  let s := R.insertionSort (· ≤ ·)
  match s with
  | [] => 0
  | x :: _ =>
    let h : ℚ := ((s.length - 1 : ℕ) : ℚ) * 5 / 100
    let lo : ℕ := (⌊h⌋).toNat
    let a := s.getD lo x
    let b := s.getD (lo + 1) a
    a + (h - (lo : ℚ)) * (b - a)

/-- Source `var_95 = abs(np.percentile(returns_array, 5) * 100)` (`services.py`
line 64). -/
def valueAtRisk95 (R : List ℚ) : ℚ := |percentile5 R * 100|

/-- Model of `RiskAnalysisService.calculate_portfolio_risk_metrics` (`services.py`
lines 11-79), as a pure function of the snapshot values inside the 90-day
window (time-ordered) and the prior stored `RiskMetrics` row.  Returns the
`(success, message)` pair together with the stored row after the call:
the two insufficient-data paths return before any field is assigned, and a
NaN max drawdown makes the `save()` raise (caught by the generic handler,
line 78), so in all failure cases the stored row is returned unchanged.
Rounding to 2 decimal places at persistence is idealised away. -/
noncomputable def calcRiskMetrics (snaps : List ℚ) (rm : RiskMetrics) :
    Bool × String × RiskMetrics :=
  if snaps.length < 7 then
    (false, "Not enough historical data for risk calculations", rm)
  else
    let returns := returnsOf snaps
    if returns.length < 5 then
      (false, "Not enough return data for risk calculations", rm)
    else
      match npMaxO (codeDrawdowns snaps) with
      | none => (false, "Error calculating risk metrics: NaN max drawdown", rm)
      | some md =>
        (true, "Risk metrics updated successfully",
          { rm with
            volatility_30d := some (volatility30 returns),
            volatility_90d := some (volatility90 returns),
            max_drawdown := some ((100 * md : ℚ) : ℝ),
            sharpe_ratio := some (sharpeRatio returns),
            value_at_risk := some ((valueAtRisk95 returns : ℚ) : ℝ) })

/-! ## Helper lemmas -/

theorem runFrom_nil (s : Option SyncState) : runFrom s [] = s := rfl

theorem runFrom_cons (s : Option SyncState) (t : List TokenRow)
    (ts : List (List TokenRow)) :
    runFrom s (t :: ts) = runFrom (some (syncCycle t s)) ts := rfl

theorem rmStep_concentration_pos (toks : List TokenRow) (rm : RiskMetrics)
    (hne : toks ≠ []) (hpos : 0 < sumTokens toks) :
    (rmStep toks rm).concentration_risk =
      some ((100 * largestAgg toks / sumTokens toks : ℚ) : ℝ) := by
  simp only [rmStep, if_pos (And.intro hne hpos)]
  norm_num
  ring

/-! ## C8 — performance comparator -/

/-- C8: for a present checkpoint `> 0` the reported percentage change is
`100 × (current − checkpoint) / checkpoint`; for an absent or non-positive
checkpoint the reported change is exactly `0` (no division occurs). -/
theorem C8_pct_change (cur c : ℚ) :
    (0 < c → pctChange cur (some c) = 100 * (cur - c) / c) ∧
    (c ≤ 0 → pctChange cur (some c) = 0) ∧
    pctChange cur none = 0 := by
  refine ⟨fun h => ?_, fun h => ?_, rfl⟩
  · simp only [pctChange, if_pos h]; ring
  · simp only [pctChange, if_neg (not_lt.mpr h)]

/-- C8 witness: checkpoint `0` with current `500` reports `0`; checkpoint
`500` with current `600` reports `20`%. -/
theorem C8_pct_change_witness :
    pctChange 500 (some 0) = 0 ∧ pctChange 600 (some 500) = 20 := by
  constructor
  · exact (C8_pct_change 500 0).2.1 le_rfl
  · rw [(C8_pct_change 600 500).1 (by norm_num)]; norm_num

/-! ## C9 — transaction direction -/

/-- C9 counterexample: the claim that the direction is `send` exactly when
the from-address equals the wallet address under case normalisation of
*both* sides is false: with wallet address `"0xAB"` and from-address
`"0xAB"` the two sides agree case-insensitively, yet the code compares the
raw from-address against the lowercased wallet address and classifies the
transaction as `unknown`. -/
theorem C9_counterexample :
    ¬ (∀ f t w : String, txDirection f t w = "send" ↔ pyLower f = pyLower w) := by
  intro h
  have := (h "0xAB" "0xCD" "0xAB").mpr rfl
  exact absurd this (by decide)

/-- C9 (amended): the stored direction is `send` exactly when the raw
from-address equals the lowercased wallet address, `receive` exactly when
the from-address does not so match and the raw to-address does, and
`unknown` exactly when neither raw address equals the lowercased wallet
address; the provider-side addresses are not case-normalised. -/
theorem C9_direction (f t w : String) :
    (txDirection f t w = "send" ↔ f = pyLower w) ∧
    (txDirection f t w = "receive" ↔ f ≠ pyLower w ∧ t = pyLower w) ∧
    (txDirection f t w = "unknown" ↔ f ≠ pyLower w ∧ t ≠ pyLower w) := by
  unfold txDirection
  split_ifs with h1 h2 <;>
    simp_all [show ("send" : String) ≠ "receive" from by decide,
      show ("send" : String) ≠ "unknown" from by decide,
      show ("receive" : String) ≠ "unknown" from by decide,
      show ("receive" : String) ≠ "send" from by decide,
      show ("unknown" : String) ≠ "send" from by decide,
      show ("unknown" : String) ≠ "receive" from by decide]

/-- C9 witness: a lowercase from-address matching the lowercased wallet
address is classified `send`. -/
theorem C9_direction_witness : txDirection "0xab" "0xCD" "0xAB" = "send" := by
  exact (C9_direction "0xab" "0xCD" "0xAB").1.mpr (by decide)

/-! ## C10 — the portfolio-overview read is not pure -/

/-- C10: `PortfolioView.get` overwrites and persists the portfolio's total
value with the sum of the current wallet-token USD balances, while leaving
the checkpoints, the extrema, the snapshot series (no snapshot appended)
and the stored risk metrics unchanged; on a missing portfolio row it
creates one whose total is that sum. -/
theorem C10_get_effect (toks : List TokenRow) (st : SyncState) :
    (portfolioGet toks (some st)).p.total = sumTokens toks ∧
    (portfolioGet toks (some st)).p.prevDay = st.p.prevDay ∧
    (portfolioGet toks (some st)).p.prevWeek = st.p.prevWeek ∧
    (portfolioGet toks (some st)).p.prevMonth = st.p.prevMonth ∧
    (portfolioGet toks (some st)).p.ath = st.p.ath ∧
    (portfolioGet toks (some st)).p.atl = st.p.atl ∧
    (portfolioGet toks (some st)).p.snapshots = st.p.snapshots ∧
    (portfolioGet toks (some st)).rm = st.rm ∧
    (portfolioGet toks none).p.total = sumTokens toks :=
  ⟨rfl, rfl, rfl, rfl, rfl, rfl, rfl, rfl, rfl⟩

/-! ## C7 — concentration risk -/

/-- C7 (code bug): the claimed concentration rule is exactly what the
block at `views.py` lines 328-346 implements, but that block is dead
code: the `NameError` at line 320 (unimported `PortfolioSnapshot`) aborts
the enclosing `try` block before line 325, so no sync cycle ever stores a
concentration value.  At the spec's own example input (assets BTC 600,
ETH 300, SOL 100, total 1000, prior value unset) the cycle leaves the
stored concentration unset, while the dead block, run in isolation,
would store the claimed 60%. -/
theorem C7_concentration_unreachable :
    (syncCycle [("BTC", some 600), ("ETH", some 300), ("SOL", some 100)]
        (some ⟨freshPortfolio, freshRiskMetrics⟩)).rm.concentration_risk = none ∧
    (rmStep [("BTC", some 600), ("ETH", some 300), ("SOL", some 100)]
        freshRiskMetrics).concentration_risk = some 60 := by
  constructor
  · rfl
  · have hsum : sumTokens [("BTC", some 600), ("ETH", some 300), ("SOL", some 100)] = 1000 := by
      norm_num [sumTokens, orZero]
    have hlar : largestAgg [("BTC", some 600), ("ETH", some 300), ("SOL", some 100)] = 600 := by
      norm_num [largestAgg, aggregateTokens, addToken, List.max?, orZero,
        show ("BTC" : String) ≠ "SOL" from by decide,
        show ("ETH" : String) ≠ "SOL" from by decide,
        show ("BTC" : String) ≠ "ETH" from by decide]
    rw [rmStep_concentration_pos _ freshRiskMetrics (by simp) (by rw [hsum]; norm_num)]
    rw [hsum, hlar]
    norm_num

/-! ## C5 — max drawdown -/

theorem combMaxO_none_left (x : Option ℚ) : combMaxO none x = none := by
  cases x <;> rfl

theorem foldl_combMaxO_none (xs : List (Option ℚ)) :
    xs.foldl combMaxO none = none := by
  induction xs with
  | nil => rfl
  | cons x xs ih => rw [List.foldl_cons, combMaxO_none_left, ih]

theorem codeMaxDrawdown_zero_head (rest : List ℚ) :
    codeMaxDrawdown (0 :: rest) = none := by
  simp [codeMaxDrawdown, codeDrawdowns, runningMax, npMaxO, foldl_combMaxO_none]

theorem runningMaxAux_mem_pos {m : ℚ} (hm : 0 < m) (l : List ℚ) :
    ∀ x ∈ runningMaxAux m l, 0 < x := by
  induction l generalizing m with
  | nil => intro x hx; simp [runningMaxAux] at hx
  | cons v vs ih =>
    intro x hx
    simp only [runningMaxAux, List.mem_cons] at hx
    rcases hx with rfl | hx
    · exact lt_max_iff.mpr (Or.inl hm)
    · exact ih (lt_max_iff.mpr (Or.inl hm)) x hx

theorem runningMax_mem_pos {a : ℚ} (ha : 0 < a) (rest : List ℚ) :
    ∀ x ∈ runningMax (a :: rest), 0 < x := by
  intro x hx
  simp only [runningMax, List.mem_cons] at hx
  rcases hx with rfl | hx
  · exact ha
  · exact runningMaxAux_mem_pos ha rest x hx

theorem zipWith_code_eq_claim (ms vs : List ℚ) (h : ∀ m ∈ ms, m ≠ 0) :
    List.zipWith (fun m v => if m = 0 then none else some ((m - v) / m)) ms vs
      = (List.zipWith (fun m v => if m = 0 then (0 : ℚ) else (m - v) / m) ms vs).map some := by
  induction ms generalizing vs with
  | nil => simp
  | cons m ms ih =>
    cases vs with
    | nil => simp
    | cons v vs =>
      have hm : m ≠ 0 := h m (List.mem_cons_self _ _)
      simp only [List.zipWith_cons_cons, List.map_cons, if_neg hm,
        ih vs (fun x hx => h x (List.mem_cons_of_mem _ hx))]

theorem codeDrawdowns_eq_claim (V : List ℚ) (h : ∀ m ∈ runningMax V, m ≠ 0) :
    codeDrawdowns V = (claimDrawdowns V).map some := by
  unfold codeDrawdowns claimDrawdowns
  exact zipWith_code_eq_claim _ _ h

theorem foldl_combMaxO_map_some (xs : List ℚ) : ∀ x : ℚ,
    (xs.map some).foldl combMaxO (some x) = some (xs.foldl max x) := by
  induction xs with
  | nil => intro x; rfl
  | cons y ys ih => intro x; rw [List.map_cons, List.foldl_cons, List.foldl_cons]; exact ih (max x y)

theorem npMaxO_map_some (l : List ℚ) (h : l ≠ []) : npMaxO (l.map some) = l.max? := by
  cases l with
  | nil => exact absurd rfl h
  | cons x xs =>
    rw [List.map_cons]
    show (xs.map some).foldl combMaxO (some x) = (x :: xs).max?
    rw [foldl_combMaxO_map_some]
    rfl

/-- C5 (amended): for a non-negative valuation sequence whose first value
is positive (so the running maximum is everywhere positive), the computed
max drawdown equals `100 ×` the maximum over `i` of
`(runningMax[i] − V[i]) / runningMax[i]`; but when the sequence starts at
`0` (the only way a non-negative sequence gets a zero running maximum) the
computation produces an undefined (NaN) result rather than treating that
index as a `0` drawdown contribution. -/
theorem C5_max_drawdown (a : ℚ) (rest : List ℚ) (hnn : ∀ v ∈ a :: rest, 0 ≤ v) :
    (0 < a → codeMaxDrawdown (a :: rest) = some (claimMaxDrawdown (a :: rest))) ∧
    (a = 0 → codeMaxDrawdown (a :: rest) = none) := by
  constructor
  · intro ha
    have hne : ∀ m ∈ runningMax (a :: rest), m ≠ 0 :=
      fun m hm => ne_of_gt (runningMax_mem_pos ha rest m hm)
    have h2 : claimDrawdowns (a :: rest) ≠ [] := by
      unfold claimDrawdowns runningMax
      simp
    unfold codeMaxDrawdown claimMaxDrawdown
    rw [codeDrawdowns_eq_claim _ hne, npMaxO_map_some _ h2]
    cases hm : (claimDrawdowns (a :: rest)).max? with
    | none => exact absurd (List.max?_eq_none_iff.mp hm) h2
    | some M => simp
  · intro ha
    subst ha
    exact codeMaxDrawdown_zero_head rest

/-- C5 counterexample: the claim that every index with zero running
maximum contributes `0` drawdown (never an undefined result) fails on the
non-negative valuation series `[0, 100, …, 100]`: the code's division
produces NaN there (`none`), not the claimed `100 × max_i` value. -/
theorem C5_counterexample :
    ¬ (∀ V : List ℚ, (∀ v ∈ V, 0 ≤ v) →
        codeMaxDrawdown V = some (claimMaxDrawdown V)) := by
  intro h
  have := h [0, 100, 100, 100, 100, 100, 100, 100]
    (by norm_num [List.forall_mem_cons])
  rw [codeMaxDrawdown_zero_head] at this
  exact Option.noConfusion this

/-- C5 witness: on the spec's example series
`[100, 110, 99, 105, 90, 120, 115, 108]` the max drawdown is
`200/11 ≈ 18.18`%. -/
theorem C5_max_drawdown_witness :
    codeMaxDrawdown [100, 110, 99, 105, 90, 120, 115, 108] = some (200 / 11) := by
  rw [(C5_max_drawdown 100 [110, 99, 105, 90, 120, 115, 108]
    (by norm_num [List.forall_mem_cons])).1 (by norm_num)]
  norm_num [claimMaxDrawdown, claimDrawdowns, runningMax, runningMaxAux, List.max?]

/-! ## C2 — insufficient data is a soft failure -/

/-- C2: with fewer than 7 snapshots in the window, or fewer than 5 returns
surviving the skip filter, the risk calculation reports `success = false`
with one of the two human-readable reason strings, and the stored
`RiskMetrics` row is returned unchanged. -/
theorem C2_insufficient_data (snaps : List ℚ) (rm : RiskMetrics)
    (h : snaps.length < 7 ∨ (returnsOf snaps).length < 5) :
    (calcRiskMetrics snaps rm).1 = false ∧
    ((calcRiskMetrics snaps rm).2.1 = "Not enough historical data for risk calculations" ∨
      (calcRiskMetrics snaps rm).2.1 = "Not enough return data for risk calculations") ∧
    (calcRiskMetrics snaps rm).2.2 = rm := by
  by_cases h7 : snaps.length < 7
  · simp [calcRiskMetrics, if_pos h7]
  · have h5 : (returnsOf snaps).length < 5 := h.resolve_left h7
    simp [calcRiskMetrics, if_neg h7, if_pos h5]

/-- C2 witness: a window of 3 snapshots soft-fails and leaves a fresh
`RiskMetrics` row unchanged. -/
theorem C2_insufficient_data_witness :
    (calcRiskMetrics [1, 2, 3] freshRiskMetrics).1 = false ∧
    (calcRiskMetrics [1, 2, 3] freshRiskMetrics).2.2 = freshRiskMetrics := by
  refine ⟨?_, ?_⟩
  · exact (C2_insufficient_data [1, 2, 3] freshRiskMetrics (Or.inl (by norm_num))).1
  · exact (C2_insufficient_data [1, 2, 3] freshRiskMetrics (Or.inl (by norm_num))).2.2

/-! ## C6 — Sharpe ratio -/

/-- C6: a return series with zero population standard deviation reports a
Sharpe ratio of exactly `0` regardless of the sign of the mean return; with
positive standard deviation the Sharpe ratio is
`(mean − 0.02/365) / stddev × √365`. -/
theorem C6_sharpe (R : List ℚ) :
    (popStd R = 0 → sharpeRatio R = 0) ∧
    (0 < popStd R →
      sharpeRatio R =
        (((listMean R : ℚ) : ℝ) - (0.02 / 365 : ℝ)) / popStd R * Real.sqrt 365) := by
  constructor
  · intro h
    rw [sharpeRatio, if_neg]
    rw [h]
    exact lt_irrefl 0
  · intro h
    rw [sharpeRatio, if_pos h]
    norm_num [dailyRiskFree]

/-- C6 witness: eight equal valuations of 100 yield seven zero returns,
zero standard deviation, and a reported Sharpe ratio of exactly 0. -/
theorem C6_sharpe_witness :
    sharpeRatio (returnsOf (List.replicate 8 (100 : ℚ))) = 0 := by
  have hR : returnsOf (List.replicate 8 (100 : ℚ)) = List.replicate 7 0 := by
    norm_num [returnsOf, List.replicate]
  have hv : popVariance (List.replicate 7 (0 : ℚ)) = 0 := by
    norm_num [popVariance, listMean, List.replicate]
  have hstd : popStd (returnsOf (List.replicate 8 (100 : ℚ))) = 0 := by
    rw [hR, popStd, hv]
    simp
  exact (C6_sharpe _).1 hstd

/-! ## C1 — what a sync cycle does to RiskMetrics -/

/-- C1 (amended): a reconciliation cycle stores nothing into
`RiskMetrics` at all.  The snapshot-creation step at `views.py` line 320
raises `NameError` (`PortfolioSnapshot` is never imported into
`views.py`), aborting the `try` block before the risk-metrics section, so
even the concentration write is never reached; and the
volatility/drawdown/Sharpe/VaR calculator
(`RiskAnalysisService.calculate_portfolio_risk_metrics`) has no caller
anywhere in the repository.  Every stored risk-metric value therefore
keeps its prior value across every cycle, regardless of how much snapshot
history exists, and a cycle on a fresh portfolio leaves the metrics row
all-`NULL`. -/
theorem C1_sync_writes_no_risk_metrics :
    (∀ (toks : List TokenRow) (st : SyncState),
      (syncCycle toks (some st)).rm = st.rm) ∧
    (∀ toks : List TokenRow, (syncCycle toks none).rm = freshRiskMetrics) :=
  ⟨fun _ _ => rfl, fun _ => rfl⟩

/-- C1 counterexample: the claim that each cycle recomputes the stored
history-based metrics whenever enough history exists is false.  Concrete
input: a portfolio whose window holds eight equal snapshots (eight
snapshots, seven returns — enough history, and the calculator run on that
history succeeds, computing max drawdown 0) and whose stored max drawdown
is 999; after a cycle the stored value is still 999, not the recomputed
value. -/
theorem C1_counterexample :
    ¬ (∀ (toks : List TokenRow) (st : SyncState),
        (calcRiskMetrics (syncCycle toks (some st)).p.snapshots st.rm).1 = true →
          (syncCycle toks (some st)).rm.max_drawdown =
            (calcRiskMetrics (syncCycle toks (some st)).p.snapshots st.rm).2.2.max_drawdown) := by
  intro h
  have hsnap : (syncCycle [("BTC", some (100 : ℚ))]
      (some ⟨{ freshPortfolio with snapshots := List.replicate 8 100 },
             { freshRiskMetrics with max_drawdown := some 999 }⟩)).p.snapshots
      = [100, 100, 100, 100, 100, 100, 100, (100 : ℚ)] := rfl
  have hret : returnsOf [100, 100, 100, 100, 100, 100, 100, (100 : ℚ)]
      = [0, 0, 0, 0, 0, 0, 0] := by
    norm_num [returnsOf]
  have hmax : npMaxO (codeDrawdowns [100, 100, 100, 100, 100, 100, 100, (100 : ℚ)])
      = some 0 := by
    norm_num [npMaxO, codeDrawdowns, runningMax, runningMaxAux, combMaxO]
  have hsucc : (calcRiskMetrics [100, 100, 100, 100, 100, 100, 100, (100 : ℚ)]
      { freshRiskMetrics with max_drawdown := some 999 }).1 = true := by
    norm_num [calcRiskMetrics, hret, hmax]
  have hdd : (calcRiskMetrics [100, 100, 100, 100, 100, 100, 100, (100 : ℚ)]
      { freshRiskMetrics with max_drawdown := some 999 }).2.2.max_drawdown
      = some ((0 : ℚ) : ℝ) := by
    norm_num [calcRiskMetrics, hret, hmax]
  have hkeep : (syncCycle [("BTC", some (100 : ℚ))]
      (some ⟨{ freshPortfolio with snapshots := List.replicate 8 100 },
             { freshRiskMetrics with max_drawdown := some 999 }⟩)).rm.max_drawdown
      = some (999 : ℝ) := rfl
  have hcontra := h [("BTC", some (100 : ℚ))]
    ⟨{ freshPortfolio with snapshots := List.replicate 8 100 },
     { freshRiskMetrics with max_drawdown := some 999 }⟩
  rw [hsnap] at hcontra
  have := (hcontra hsucc).symm.trans hkeep
  rw [hdd] at this
  have h90 : ((0 : ℚ) : ℝ) = (999 : ℝ) := Option.some.inj this
  norm_num at h90

/-! ## C3 — valuations are never recorded; C4 — checkpoint stability -/

theorem portfolioStep_false_fields (total : ℚ) (p : PortfolioState) :
    portfolioStep total false p =
      { total := total,
        prevDay := fillCheckpoint p.prevDay total,
        prevWeek := fillCheckpoint p.prevWeek total,
        prevMonth := fillCheckpoint p.prevMonth total,
        ath := updateAth p.ath total,
        atl := updateAtl p.atl total,
        snapshots := p.snapshots } := rfl

theorem syncCycle_some_p (t : List TokenRow) (st : SyncState) :
    (syncCycle t (some st)).p = portfolioStep (sumTokens t) false st.p := rfl

/-- C3 (code bug): the claimed extrema invariant over recorded valuations
is the intended behaviour (and the extrema updates at `views.py` lines
299-314 do run), but the program never records any valuation: line 320
references `PortfolioSnapshot`, a name line 8 never imports, so snapshot
creation raises `NameError` on every reconciliation cycle and the
recorded-valuation series stays empty forever — there is no "newly
appended snapshot value" for the stored extrema to bound.  Evaluating the
code: every cycle leaves the snapshot series exactly as it was, and the
failing input — a fresh portfolio's first cycle, one BTC wallet-token
worth 100 — records nothing even though it sets the extrema to the cycle
total. -/
theorem C3_no_valuation_recorded :
    (∀ (toks : List TokenRow) (st : SyncState),
      (syncCycle toks (some st)).p.snapshots = st.p.snapshots) ∧
    (syncCycle [("BTC", some 100)] none).p.snapshots = [] ∧
    (syncCycle [("BTC", some 100)] none).p.ath = some (sumTokens [("BTC", some 100)]) :=
  ⟨fun _ _ => rfl, rfl, rfl⟩

/-- C4 (amended): once a checkpoint holds a *non-zero* value, no later
reconciliation cycle ever changes it, regardless of the totals observed
later.  (A checkpoint holding `0` is treated as unset by the code's
truthiness test and may be overwritten — see the counterexample.) -/
theorem C4_checkpoint_stable : ∀ (cycles : List (List TokenRow)) (s s' : SyncState) (c : ℚ),
    c ≠ 0 → runFrom (some s) cycles = some s' →
    (s.p.prevDay = some c → s'.p.prevDay = some c) ∧
    (s.p.prevWeek = some c → s'.p.prevWeek = some c) ∧
    (s.p.prevMonth = some c → s'.p.prevMonth = some c) := by
  intro cycles
  induction cycles with
  | nil =>
    intro s s' c hc h
    rw [runFrom_nil] at h
    injection h with h
    subst h
    exact ⟨id, id, id⟩
  | cons t ts ih =>
    intro s s' c hc h
    rw [runFrom_cons] at h
    have hstep : ∀ cp : Option ℚ, cp = some c → fillCheckpoint cp (sumTokens t) = some c := by
      intro cp hcp
      subst hcp
      simp [fillCheckpoint, if_neg hc]
    have hrest := ih (syncCycle t (some s)) s' c hc h
    refine ⟨fun hd => hrest.1 ?_, fun hw => hrest.2.1 ?_, fun hm => hrest.2.2 ?_⟩
    · rw [syncCycle_some_p, portfolioStep_false_fields]
      exact hstep _ hd
    · rw [syncCycle_some_p, portfolioStep_false_fields]
      exact hstep _ hw
    · rw [syncCycle_some_p, portfolioStep_false_fields]
      exact hstep _ hm

/-- C4 witness: a previous-day checkpoint of 5 survives a later cycle with
total 7. -/
theorem C4_checkpoint_stable_witness :
    (syncCycle [("BTC", some 7)]
      (some ⟨{ freshPortfolio with prevDay := some 5, prevWeek := some 5, prevMonth := some 5 },
             freshRiskMetrics⟩)).p.prevDay = some 5 := by
  have h := C4_checkpoint_stable [[("BTC", some 7)]]
    ⟨{ freshPortfolio with prevDay := some 5, prevWeek := some 5, prevMonth := some 5 },
     freshRiskMetrics⟩
    (syncCycle [("BTC", some 7)]
      (some ⟨{ freshPortfolio with prevDay := some 5, prevWeek := some 5, prevMonth := some 5 },
             freshRiskMetrics⟩))
    5 (by norm_num) rfl
  exact h.1 rfl

/-- C4 counterexample: the claim that a checkpoint, once set by some
cycle, is never changed by a later cycle is false.  Concrete run: a fresh
portfolio synced with no tokens (total 0) sets every checkpoint to 0; the
next cycle with total 500 overwrites the previous-day checkpoint to 500,
because the code's `if not checkpoint` truthiness test treats a stored 0
as unset. -/
theorem C4_counterexample :
    ¬ (∀ (setup later : List (List TokenRow)) (s s' : SyncState) (c : ℚ),
        runFrom none setup = some s → s.p.prevDay = some c →
        runFrom (some s) later = some s' → s'.p.prevDay = some c) := by
  intro h
  have h0 : (syncCycle ([] : List TokenRow) none).p.prevDay = some 0 := rfl
  have h5 : (syncCycle [("BTC", some (500 : ℚ))]
      (some (syncCycle ([] : List TokenRow) none))).p.prevDay = some 500 := by
    rw [syncCycle_some_p, portfolioStep_false_fields]
    show fillCheckpoint (syncCycle ([] : List TokenRow) none).p.prevDay
      (sumTokens [("BTC", some (500 : ℚ))]) = some 500
    rw [h0]
    norm_num [fillCheckpoint, sumTokens, orZero]
  have hinst := h [[]] [[("BTC", some (500 : ℚ))]]
    (syncCycle ([] : List TokenRow) none)
    (syncCycle [("BTC", some (500 : ℚ))] (some (syncCycle ([] : List TokenRow) none)))
    0 rfl h0 rfl
  rw [h5] at hinst
  injection hinst with hinst
  norm_num at hinst
